import Mathlib

/-!
Shallow embedding of `src/plotly_visualizations.py` (usman-rizz/WebScrapping).

The script is a single linear pass: read a CSV into a dataframe, clean the
`Price` column, coerce `Rating`/`Reviews` to numeric, emit up to six HTML
chart files, then attempt optional PNG exports.

Modelling conventions:
* a pandas column is either `object` dtype (a list of strings, as loaded by
  `read_csv` for textual data, matching the script's `astype(str)` use) or
  numeric dtype (a list of `Option ℚ`, where `none` is NaN / a missing value);
* `pd.to_numeric(..., errors='coerce')` on a cell is modelled by
  `parseDecimal?`, a parser for optionally signed decimal literals with
  optional fractional part and surrounding whitespace, returning `none`
  (missing) on anything else;
* file writes, prints and exceptions are recorded explicitly in `RunResult`;
  the availability/behaviour of the `kaleido` renderer behind
  `pio.write_image` is a parameter `render : String → Bool`
  (`false` = that call raises);
* `px.*` chart constructors are opaque chart builders: within this script the
  only exception they can raise that the script's own control flow is built
  around is the missing-column access for `Price` in `px.histogram`
  (every other column use is behind an explicit `in df.columns` guard).
-/

/-- Pandas column dtype as the script distinguishes it: `df['Price'].dtype == object`
versus numeric (`select_dtypes(include=['number'])`). -/
inductive Dtype
  | object
  | numeric
  deriving DecidableEq, Repr

/-- Column payload: an `object` column of strings, or a numeric column whose
cells are either a rational (`some q`) or NaN (`none`). -/
inductive ColData
  | obj (cells : List String)
  | num (cells : List (Option ℚ))
  deriving DecidableEq, Repr

/-- The dtype of a column's payload. -/
def ColData.dtype : ColData → Dtype
  | .obj _ => Dtype.object
  | .num _ => Dtype.numeric

/-- A single cell value, used when reading a column positionally
(e.g. pairing `Product Name` with `Reviews`). Out-of-range or NaN reads
are `na`. -/
inductive Cell
  | str (s : String)
  | num (q : ℚ)
  | na
  deriving DecidableEq, Repr

/-- Positional cell read from a column. -/
def ColData.cellAt : ColData → Nat → Cell
  | .obj cs, i =>
    match cs.get? i with
    | some s => Cell.str s
    | none => Cell.na
  | .num cs, i =>
    match cs.get? i with
    | some (some q) => Cell.num q
    | _ => Cell.na

/-- A dataframe: named columns in order, as loaded by `pd.read_csv`. -/
structure DataFrame where
  cols : List (String × ColData)
  deriving DecidableEq, Repr

/-- `df.columns`. -/
def DataFrame.columns (df : DataFrame) : List String :=
  df.cols.map Prod.fst

/-- First column with a given label in a column list. -/
def findCol : List (String × ColData) → String → Option ColData
  | [], _ => none
  | p :: t, n => if p.1 = n then some p.2 else findCol t n

/-- Column lookup `df[name]` (first column with that label). -/
def DataFrame.get? (df : DataFrame) (name : String) : Option ColData :=
  findCol df.cols name

/-- Replace the payload of every column labelled `n`. -/
def setCols (l : List (String × ColData)) (n : String) (c : ColData) :
    List (String × ColData) :=
  l.map (fun p => if p.1 = n then (p.1, c) else p)

/-- Column assignment `df[name] = c` for an existing column label. -/
def DataFrame.set (df : DataFrame) (name : String) (c : ColData) : DataFrame :=
  ⟨setCols df.cols name c⟩

/-- The labels of the numeric-dtype columns,
`df.select_dtypes(include=['number']).columns.tolist()`. -/
def DataFrame.numericCols (df : DataFrame) : List String :=
  (df.cols.filter (fun p => p.2.dtype = Dtype.numeric)).map Prod.fst

/-! ## Numeric parsing (`pd.to_numeric(..., errors='coerce')` on one cell) -/

/-- Value of a digit string, most significant first. -/
def digitsVal (cs : List Char) : ℕ :=
  cs.foldl (fun a c => 10 * a + (c.toNat - 48)) 0

/-- Parse an unsigned decimal literal: digits with an optional single decimal
point (`"14"`, `"14.70"`, `"14."`, `".5"`); anything else is `none`. -/
def parseUnsignedChars (cs : List Char) : Option ℚ :=
  let ip := cs.takeWhile (fun c => c ≠ '.')
  match cs.dropWhile (fun c => c ≠ '.') with
  | [] =>
    if cs ≠ [] ∧ cs.all Char.isDigit then some (digitsVal cs) else none
  | _ :: fp =>
    if (ip ≠ [] ∨ fp ≠ []) ∧ ip.all Char.isDigit ∧ fp.all Char.isDigit then
      some ((digitsVal ip : ℚ) + (digitsVal fp : ℚ) / (10 : ℚ) ^ fp.length)
    else none

/-- `pd.to_numeric(errors='coerce')` applied to one string cell, modelled as an
optionally signed decimal literal with surrounding whitespace stripped;
unparseable text coerces to `none` (NaN). -/
def parseDecimal? (s : String) : Option ℚ :=
  let cs := ((s.toList.dropWhile Char.isWhitespace).reverse.dropWhile
    Char.isWhitespace).reverse
  match cs with
  | '-' :: rest => (parseUnsignedChars rest).map (fun q => -q)
  | '+' :: rest => parseUnsignedChars rest
  | _ => parseUnsignedChars cs

/-! ## Cleaning steps (script lines 16–23) -/

/-- `.str.replace('£', '', regex=False).str.replace(',', '', regex=False)`:
every `£` and every `,` character is removed. -/
def stripCurrency (s : String) : String :=
  String.mk (s.toList.filter (fun c => ¬ (c = '£' ∨ c = ',')))

/-- The per-cell effect of the `Price` cleaning block on an object-dtype cell:
strip currency symbol and thousands separators, then coerce to numeric. -/
def cleanPriceCell (s : String) : Option ℚ :=
  parseDecimal? (stripCurrency s)

/-- The `Price` cleaning transformation on the whole column (only ever applied
to an object-dtype column; see `cleanPriceStep`). -/
def cleanPriceCol : ColData → ColData
  | .obj cells => ColData.num (cells.map cleanPriceCell)
  | .num cells => ColData.num cells

/-- Script lines 16–18: `df['Price']` raises `KeyError` when the column is
absent; otherwise the strip-and-coerce transformation runs exactly when the
column's dtype is `object`. -/
def cleanPriceStep (df : DataFrame) : Except String DataFrame :=
  match df.get? "Price" with
  | none => Except.error "KeyError: Price"
  | some c =>
    if c.dtype = Dtype.object then
      Except.ok (df.set "Price" (cleanPriceCol c))
    else
      Except.ok df

/-- `pd.to_numeric(df[col], errors='coerce')` on a whole column: an object
column is parsed cell-wise; a numeric column is unchanged. -/
def coerceNumericCol : ColData → ColData
  | .obj cells => ColData.num (cells.map parseDecimal?)
  | .num cells => ColData.num cells

/-- One iteration of the coercion loop: `if col in df.columns: df[col] = ...`. -/
def coerceOne (df : DataFrame) (col : String) : DataFrame :=
  match df.get? col with
  | some c => df.set col (coerceNumericCol c)
  | none => df

/-- Script lines 21–23: the loop `for col in ['Rating', 'Reviews']`. -/
def coerceStep (df : DataFrame) : DataFrame :=
  coerceOne (coerceOne df "Rating") "Reviews"

/-- The dataframe after both cleaning steps (lines 16–23), for runs that get
past them: the state the chart steps see. -/
def afterCleaning (df : DataFrame) : DataFrame :=
  coerceStep
    (match df.get? "Price" with
     | some c =>
       if c.dtype = Dtype.object then df.set "Price" (cleanPriceCol c) else df
     | none => df)

/-! ## Chart generation steps (script lines 28–68) -/

/-- The six HTML artifact filenames, in the order the script writes them
(the constant `OUTDIR` prefix `plots/` is elided throughout). -/
def htmlName : Nat → String
  | 1 => "01_price_histogram.html"
  | 2 => "02_price_by_subcategory_box.html"
  | 3 => "03_price_vs_rating_scatter.html"
  | 4 => "04_top_products_by_reviews.html"
  | 5 => "05_correlation_heatmap.html"
  | _ => "06_category_treemap.html"

/-- The names the script binds its figure objects to: `fig1` … `fig6`. -/
def allFigNames : List String :=
  ["fig1", "fig2", "fig3", "fig4", "fig5", "fig6"]

/-- The guard of chart step 2 (line 34). -/
def guard2 (df : DataFrame) : Prop := "Sub Category" ∈ df.columns

/-- The guard of chart step 3 (line 42): `{'Price', 'Rating'}.issubset(df.columns)`. -/
def guard3 (df : DataFrame) : Prop :=
  "Price" ∈ df.columns ∧ "Rating" ∈ df.columns

/-- The guard of chart step 4 (line 51). -/
def guard4 (df : DataFrame) : Prop :=
  "Reviews" ∈ df.columns ∧ "Product Name" ∈ df.columns

/-- The guard of chart step 5 (line 60): `len(num_cols) >= 2`. -/
def guard5 (df : DataFrame) : Prop := 2 ≤ df.numericCols.length

/-- The guard of chart step 6 (line 66). -/
def guard6 (df : DataFrame) : Prop :=
  "Main Category" ∈ df.columns ∧ "Sub Category" ∈ df.columns

instance (df : DataFrame) : Decidable (guard2 df) := by unfold guard2; infer_instance
instance (df : DataFrame) : Decidable (guard3 df) := by unfold guard3; infer_instance
instance (df : DataFrame) : Decidable (guard4 df) := by unfold guard4; infer_instance
instance (df : DataFrame) : Decidable (guard5 df) := by unfold guard5; infer_instance
instance (df : DataFrame) : Decidable (guard6 df) := by unfold guard6; infer_instance

/-- The HTML files the chart steps write, in order, once step 1 got past its
unguarded `Price` access. -/
def chartFiles (df : DataFrame) : List String :=
  ["01_price_histogram.html"]
  ++ (if guard2 df then ["02_price_by_subcategory_box.html"] else [])
  ++ (if guard3 df then ["03_price_vs_rating_scatter.html"] else [])
  ++ (if guard4 df then ["04_top_products_by_reviews.html"] else [])
  ++ (if guard5 df then ["05_correlation_heatmap.html"] else [])
  ++ (if guard6 df then ["06_category_treemap.html"] else [])

/-- The figure variables the chart steps bind, in order. -/
def chartFigs (df : DataFrame) : List String :=
  ["fig1"]
  ++ (if guard2 df then ["fig2"] else [])
  ++ (if guard3 df then ["fig3"] else [])
  ++ (if guard4 df then ["fig4"] else [])
  ++ (if guard5 df then ["fig5"] else [])
  ++ (if guard6 df then ["fig6"] else [])

/-- Script lines 28–68: the six chart steps, each writing its HTML file when
its guard holds. `px.histogram(df, x='Price', ...)` has no guard, so a
missing `Price` column raises there; every other step checks
`in df.columns` (or `len(num_cols) >= 2`) first. Returns the HTML files
written and the figure variables bound. -/
def chartPhase (df : DataFrame) : Except String (List String × List String) :=
  if "Price" ∈ df.columns then
    Except.ok (chartFiles df, chartFigs df)
  else
    Except.error "KeyError: Price"

/-! ## Top-reviews bar chart data (script lines 51–53) -/

/-- Ordering used to model `df.nlargest(15, 'Reviews')` on the (index, value)
pairs of the non-NaN `Reviews` cells: larger values first, ties broken by
original position (pandas `keep='first'`). -/
def revBefore (a b : ℕ × ℚ) : Prop :=
  b.2 < a.2 ∨ (a.2 = b.2 ∧ a.1 ≤ b.1)

instance : DecidableRel revBefore := fun a b => by
  unfold revBefore; infer_instance

instance : IsTotal (ℕ × ℚ) revBefore :=
  ⟨fun a b => by
    unfold revBefore
    rcases lt_trichotomy a.2 b.2 with h | h | h
    · exact Or.inr (Or.inl h)
    · rcases Nat.le_total a.1 b.1 with h1 | h1
      · exact Or.inl (Or.inr ⟨h, h1⟩)
      · exact Or.inr (Or.inr ⟨h.symm, h1⟩)
    · exact Or.inl (Or.inl h)⟩

instance : IsTrans (ℕ × ℚ) revBefore :=
  ⟨fun a b c hab hbc => by
    unfold revBefore at *
    rcases hab with h1 | ⟨e1, l1⟩
    · rcases hbc with h2 | ⟨e2, _⟩
      · exact Or.inl (h2.trans h1)
      · exact Or.inl (e2 ▸ h1)
    · rcases hbc with h2 | ⟨e2, l2⟩
      · exact Or.inl (e1 ▸ h2)
      · exact Or.inr ⟨e1.trans e2, l1.trans l2⟩⟩

/-- `df.nlargest(15, 'Reviews')` restricted to what the chart uses: the
(row index, Reviews value) pairs of the rows with the largest non-NaN
`Reviews` values, in descending order, at most `n` of them. pandas
`nlargest` drops NaN rows. -/
def nlargestPairs (vals : List (Option ℚ)) (n : ℕ) : List (ℕ × ℚ) :=
  ((vals.enum.filterMap (fun p => p.2.map (fun q => (p.1, q)))).insertionSort
    revBefore).take n

/-- `drop_duplicates()` with pandas' default `keep='first'`:
keep the first occurrence of each element, preserving order. -/
def dedupKeepFirst {α : Type} [DecidableEq α] : List α → List α
  | [] => []
  | a :: rest => a :: dedupKeepFirst (rest.filter (fun x => x ≠ a))
termination_by l => l.length
decreasing_by
  simp only [List.length_cons]
  exact Nat.lt_succ_of_le (List.length_filter_le _ _)

/-- Script lines 52–53: the `(Product Name, Reviews)` pairs behind `fig4` —
`df.nlargest(15, 'Reviews')[['Product Name', 'Reviews']].drop_duplicates()`
then reversed (`top_reviews[::-1]`) for display. `pcol` is the
`Product Name` column, `rvals` the (coerced, numeric) `Reviews` cells. -/
def topReviews (pcol : ColData) (rvals : List (Option ℚ)) : List (Cell × ℚ) :=
  (dedupKeepFirst
    ((nlargestPairs rvals 15).map (fun iq => (pcol.cellAt iq.1, iq.2)))).reverse

/-! ## PNG export phase (script lines 70–98) -/

/-- The `html_png_pairs` table (lines 75–82). -/
def htmlPngPairs : List (String × String) :=
  [("01_price_histogram.html", "01_price_histogram.png"),
   ("02_price_by_subcategory_box.html", "02_price_by_subcategory_box.png"),
   ("03_price_vs_rating_scatter.html", "03_price_vs_rating_scatter.png"),
   ("04_top_products_by_reviews.html", "04_top_products_by_reviews.png"),
   ("05_correlation_heatmap.html", "05_correlation_heatmap.png"),
   ("06_category_treemap.html", "06_category_treemap.png")]

/-- Line 91: `varname = 'fig' + h.split('_')[0]` — `split('_')[0]` is the
prefix of `h` up to the first underscore. -/
def varnameFor (h : String) : String :=
  "fig" ++ String.mk (h.toList.takeWhile (fun c => c ≠ '_'))

/-- Observable outcome of the PNG export phase: PNG files written, charts for
which `pio.write_image` was invoked at all, invocations that raised (all
swallowed by the inner `except Exception: pass`), and whether the outer
handler printed its `'PNG export failed ...'` warning. -/
structure PngOut where
  pngs : List String
  attempts : List String
  failures : List String
  warned : Bool
  deriving DecidableEq, Repr

/-- Script lines 83–96: for each `(h, p)` pair, if the HTML file exists, look
up `globals().get('fig' + h.split('_')[0])`; only when that yields a figure
is `pio.write_image` invoked, and any exception it raises is caught by the
inner `except Exception: pass` (no message). Nothing in the loop outside the
inner `try` can raise, so the outer handler's warning is never printed.
`figs` is the list of bound figure variable names, `htmls` the HTML files
present in the output directory (fresh for this run), and `render p` tells
whether `pio.write_image` succeeds for `p`. -/
def pngStep (figs htmls : List String) (render : String → Bool)
    (acc : PngOut) (hp : String × String) : PngOut :=
  -- one iteration of the `for h, p in html_png_pairs` loop body

  if hp.1 ∈ htmls then
    if varnameFor hp.1 ∈ figs then
      if render hp.2 then
        { acc with
          pngs := acc.pngs ++ [hp.2], attempts := acc.attempts ++ [hp.2] }
      else
        { acc with
          attempts := acc.attempts ++ [hp.2],
          failures := acc.failures ++ [hp.2] }
    else acc
  else acc

/-- The whole `for` loop over `html_png_pairs`. -/
def pngPhase (figs htmls : List String) (render : String → Bool) : PngOut :=
  htmlPngPairs.foldl (pngStep figs htmls render) ⟨[], [], [], false⟩

/-! ## The whole run (script top to bottom) -/

/-- Observable outcome of one run of the script. `error` is an uncaught
exception (terminating the run), `metaPrinted` the `Rows: ..., columns: ...`
line (line 26), `donePrinted` the final `Plots written to ...` message
(line 100). -/
structure RunResult where
  error : Option String
  metaPrinted : Bool
  htmlFiles : List String
  figNames : List String
  png : PngOut
  donePrinted : Bool
  deriving DecidableEq, Repr

/-- The empty PNG phase outcome (runs that die before reaching it). -/
def emptyPng : PngOut := ⟨[], [], [], false⟩

/-- The whole script, top to bottom. `input` is the outcome of
`pd.read_csv(CSV_PATH)` (line 12): `Except.error` when the file is missing or
unreadable, in which case the exception propagates uncaught. `render` models
the `pio.write_image` backend as in `pngPhase`. -/
def runScript (input : Except String DataFrame) (render : String → Bool) :
    RunResult :=
  match input with
  | Except.error e => ⟨some e, false, [], [], emptyPng, false⟩
  | Except.ok df =>
    match cleanPriceStep df with
    | Except.error e => ⟨some e, false, [], [], emptyPng, false⟩
    | Except.ok df1 =>
      let df2 := coerceStep df1
      match chartPhase df2 with
      | Except.error e => ⟨some e, true, [], [], emptyPng, false⟩
      | Except.ok (htmls, figs) =>
        ⟨none, true, htmls, figs, pngPhase figs htmls render, true⟩

/-- Per the spec's examples («£14.70», «£1,234.50»), currency-formatted text
carries the `£` currency symbol; a string without it is not
currency-formatted under any reading of the spec. -/
def containsCurrencySymbol (s : String) : Bool :=
  s.toList.contains '£'

/-! ## Basic dataframe lemmas -/

lemma findCol_setCols_self (l : List (String × ColData)) (n : String)
    (c : ColData) :
    findCol (setCols l n c) n = (findCol l n).map (fun _ => c) := by
  induction l with
  | nil => rfl
  | cons p t ih =>
    by_cases h : p.1 = n
    · simp [setCols, findCol, h]
    · simp only [setCols, List.map_cons, findCol, if_neg h]
      simpa [setCols] using ih

lemma findCol_setCols_ne (l : List (String × ColData)) (n m : String)
    (c : ColData) (h : m ≠ n) :
    findCol (setCols l n c) m = findCol l m := by
  induction l with
  | nil => rfl
  | cons p t ih =>
    by_cases hp : p.1 = n
    · have hm : p.1 ≠ m := by rw [hp]; exact fun e => h e.symm
      simp only [setCols, List.map_cons, if_pos hp, findCol, if_neg hm]
      simpa [setCols] using ih
    · simp only [setCols, List.map_cons, if_neg hp, findCol]
      by_cases hm : p.1 = m
      · simp [hm]
      · simp only [if_neg hm]
        simpa [setCols] using ih

lemma columns_set (df : DataFrame) (n : String) (c : ColData) :
    (df.set n c).columns = df.columns := by
  obtain ⟨l⟩ := df
  simp only [DataFrame.set, DataFrame.columns, setCols, List.map_map]
  induction l with
  | nil => rfl
  | cons p t ih =>
    simp only [List.map_cons, Function.comp_apply] at *
    by_cases h : p.1 = n <;> simp [h, ih]

lemma mem_columns_iff_findCol (df : DataFrame) (n : String) :
    n ∈ df.columns ↔ (df.get? n).isSome = true := by
  obtain ⟨l⟩ := df
  simp only [DataFrame.columns, DataFrame.get?]
  induction l with
  | nil => simp [findCol]
  | cons p t ih =>
    by_cases h : p.1 = n
    · simp [findCol, h]
    · simp only [List.map_cons, List.mem_cons, findCol, if_neg h]
      rw [← ih]
      constructor
      · rintro (he | hm)
        · exact absurd he.symm h
        · exact hm
      · exact Or.inr

lemma get?_set_ne (df : DataFrame) (n m : String) (c : ColData) (h : m ≠ n) :
    (df.set n c).get? m = df.get? m :=
  findCol_setCols_ne df.cols n m c h

lemma get?_set_self (df : DataFrame) (n : String) (c0 c : ColData)
    (h : df.get? n = some c0) :
    (df.set n c).get? n = some c := by
  have := findCol_setCols_self df.cols n c
  simp only [DataFrame.set, DataFrame.get?] at *
  rw [this, h]
  rfl

lemma columns_coerceOne (df : DataFrame) (col : String) :
    (coerceOne df col).columns = df.columns := by
  unfold coerceOne
  cases df.get? col
  · rfl
  · exact columns_set df col _

lemma columns_coerceStep (df : DataFrame) :
    (coerceStep df).columns = df.columns := by
  unfold coerceStep
  rw [columns_coerceOne, columns_coerceOne]

lemma columns_afterCleaning (df : DataFrame) :
    (afterCleaning df).columns = df.columns := by
  unfold afterCleaning
  rw [columns_coerceStep]
  cases df.get? "Price" with
  | none => rfl
  | some c =>
    dsimp only
    by_cases h : c.dtype = Dtype.object
    · rw [if_pos h]
      exact columns_set df "Price" _
    · rw [if_neg h]

/-! ## Run-structure lemmas -/

lemma mem_ite_list {α : Type} (p : Prop) [Decidable p] (a : α) (l : List α) :
    (a ∈ if p then l else []) ↔ p ∧ a ∈ l := by
  by_cases h : p <;> simp [h]

lemma cleanPriceStep_of_get? (df : DataFrame) (c : ColData)
    (h : df.get? "Price" = some c) :
    cleanPriceStep df =
      Except.ok
        (if c.dtype = Dtype.object then df.set "Price" (cleanPriceCol c)
         else df) := by
  simp only [cleanPriceStep, h]
  rw [apply_ite Except.ok]

lemma afterCleaning_of_get? (df : DataFrame) (c : ColData)
    (h : df.get? "Price" = some c) :
    afterCleaning df =
      coerceStep
        (if c.dtype = Dtype.object then df.set "Price" (cleanPriceCol c)
         else df) := by
  unfold afterCleaning
  rw [h]

lemma runScript_ok_eq (df : DataFrame) (render : String → Bool)
    (h : "Price" ∈ df.columns) :
    runScript (Except.ok df) render =
      ⟨none, true, chartFiles (afterCleaning df), chartFigs (afterCleaning df),
       pngPhase (chartFigs (afterCleaning df)) (chartFiles (afterCleaning df))
         render, true⟩ := by
  obtain ⟨c, hc⟩ : ∃ c, df.get? "Price" = some c := by
    have := (mem_columns_iff_findCol df "Price").mp h
    exact Option.isSome_iff_exists.mp this
  have hclean := cleanPriceStep_of_get? df c hc
  have hafter := afterCleaning_of_get? df c hc
  have hmem : "Price" ∈ (afterCleaning df).columns := by
    rw [columns_afterCleaning]; exact h
  simp only [runScript, hclean, ← hafter, chartPhase, if_pos hmem]

lemma runScript_err_eq (e : String) (render : String → Bool) :
    runScript (Except.error e) render =
      ⟨some e, false, [], [], emptyPng, false⟩ := rfl

lemma runScript_noPrice_eq (df : DataFrame) (render : String → Bool)
    (h : "Price" ∉ df.columns) :
    runScript (Except.ok df) render =
      ⟨some "KeyError: Price", false, [], [], emptyPng, false⟩ := by
  have hc : df.get? "Price" = none := by
    rw [mem_columns_iff_findCol] at h
    exact Option.not_isSome_iff_eq_none.mp (fun hs => h hs)
  simp only [runScript, cleanPriceStep, hc]

/-! ## PNG-phase lemmas -/

lemma chartFigs_subset_allFigNames (df : DataFrame) :
    ∀ f ∈ chartFigs df, f ∈ allFigNames := by
  intro f hf
  simp only [chartFigs, List.mem_append, mem_ite_list, List.mem_singleton,
    List.mem_cons, List.not_mem_nil, or_false] at hf
  simp only [allFigNames, List.mem_cons, List.not_mem_nil, or_false]
  tauto

lemma pngStep_skip (figs htmls : List String) (render : String → Bool)
    (acc : PngOut) (hp : String × String) (hv : varnameFor hp.1 ∉ figs) :
    pngStep figs htmls render acc hp = acc := by
  unfold pngStep
  by_cases h1 : hp.1 ∈ htmls
  · rw [if_pos h1, if_neg hv]
  · rw [if_neg h1]

lemma foldl_pngStep_skip (figs htmls : List String) (render : String → Bool) :
    ∀ (l : List (String × String)) (acc : PngOut),
      (∀ hp ∈ l, varnameFor hp.1 ∉ figs) →
      l.foldl (pngStep figs htmls render) acc = acc := by
  intro l
  induction l with
  | nil => intro acc _; rfl
  | cons hp t ih =>
    intro acc hall
    rw [List.foldl_cons,
      pngStep_skip figs htmls render acc hp (hall hp (List.mem_cons_self hp t)),
      ih acc (fun q hq => hall q (List.mem_cons_of_mem hp hq))]

lemma pngPhase_noop (figs htmls : List String) (render : String → Bool)
    (hsub : ∀ f ∈ figs, f ∈ allFigNames) :
    pngPhase figs htmls render = emptyPng := by
  have hall : ∀ hp ∈ htmlPngPairs, varnameFor hp.1 ∉ allFigNames := by decide
  exact foldl_pngStep_skip figs htmls render htmlPngPairs _
    (fun hp hmem hvar => hall hp hmem (hsub _ hvar))

/-! ## Membership in the chart-phase outputs -/

lemma mem01_chartFiles (df : DataFrame) :
    "01_price_histogram.html" ∈ chartFiles df := by
  simp [chartFiles]

lemma mem02_chartFiles (df : DataFrame) :
    "02_price_by_subcategory_box.html" ∈ chartFiles df ↔ guard2 df := by
  simp [chartFiles, mem_ite_list]

lemma mem03_chartFiles (df : DataFrame) :
    "03_price_vs_rating_scatter.html" ∈ chartFiles df ↔ guard3 df := by
  simp [chartFiles, mem_ite_list]

lemma mem04_chartFiles (df : DataFrame) :
    "04_top_products_by_reviews.html" ∈ chartFiles df ↔ guard4 df := by
  simp [chartFiles, mem_ite_list]

lemma mem05_chartFiles (df : DataFrame) :
    "05_correlation_heatmap.html" ∈ chartFiles df ↔ guard5 df := by
  simp [chartFiles, mem_ite_list]

lemma mem06_chartFiles (df : DataFrame) :
    "06_category_treemap.html" ∈ chartFiles df ↔ guard6 df := by
  simp [chartFiles, mem_ite_list]

lemma guard2_afterCleaning (df : DataFrame) :
    guard2 (afterCleaning df) ↔ "Sub Category" ∈ df.columns := by
  unfold guard2
  rw [columns_afterCleaning]

lemma guard3_afterCleaning (df : DataFrame) (h : "Price" ∈ df.columns) :
    guard3 (afterCleaning df) ↔ "Rating" ∈ df.columns := by
  unfold guard3
  rw [columns_afterCleaning]
  exact and_iff_right h

lemma guard4_afterCleaning (df : DataFrame) :
    guard4 (afterCleaning df) ↔
      "Reviews" ∈ df.columns ∧ "Product Name" ∈ df.columns := by
  unfold guard4
  rw [columns_afterCleaning]

lemma guard6_afterCleaning (df : DataFrame) :
    guard6 (afterCleaning df) ↔
      "Main Category" ∈ df.columns ∧ "Sub Category" ∈ df.columns := by
  unfold guard6
  rw [columns_afterCleaning]

/-! ## Claim theorems -/

/-- C8: if the input CSV file is missing or unreadable, `pd.read_csv` raises
an exception that propagates to the caller uncaught, terminating the run
before any cleaning or chart output occurs: the error is recorded uncaught,
no summary or completion message is printed, and no HTML or PNG file is
written. -/
theorem readFailure_propagates_uncaught (e : String)
    (render : String → Bool) :
    runScript (Except.error e) render =
      ⟨some e, false, [], [], emptyPng, false⟩ :=
  runScript_err_eq e render

/-- C9: for every input CSV lacking a `Price` column, the run terminates with
an uncaught `KeyError` at the price-cleaning step, before the summary line is
printed and before any chart file is written. -/
theorem missingPrice_crashes_before_charts (df : DataFrame)
    (render : String → Bool) (h : "Price" ∉ df.columns) :
    runScript (Except.ok df) render =
      ⟨some "KeyError: Price", false, [], [], emptyPng, false⟩ :=
  runScript_noPrice_eq df render h

theorem missingPrice_crashes_before_charts_witness :
    "Price" ∉ (DataFrame.mk [("Name", ColData.obj ["x"])]).columns ∧
    runScript (Except.ok (DataFrame.mk [("Name", ColData.obj ["x"])]))
        (fun _ => true) =
      ⟨some "KeyError: Price", false, [], [], emptyPng, false⟩ :=
  ⟨by decide,
   missingPrice_crashes_before_charts
     (DataFrame.mk [("Name", ColData.obj ["x"])]) (fun _ => true) (by decide)⟩

/-- C10: if the `Price` column loads with a numeric (non-`object`) dtype, the
price-cleaning step leaves the dataframe — in particular the `Price` column —
exactly as loaded: the strip-and-parse transformation is guarded by
`df['Price'].dtype == object`. -/
theorem numericPrice_unchanged_by_cleaning (df : DataFrame) (c : ColData)
    (hget : df.get? "Price" = some c) (hd : c.dtype = Dtype.numeric) :
    cleanPriceStep df = Except.ok df := by
  rw [cleanPriceStep_of_get? df c hget, if_neg]
  rw [hd]
  decide

theorem numericPrice_unchanged_by_cleaning_witness :
    (DataFrame.mk [("Price", ColData.num [some 5, none])]).get? "Price" =
      some (ColData.num [some 5, none]) ∧
    cleanPriceStep (DataFrame.mk [("Price", ColData.num [some 5, none])]) =
      Except.ok (DataFrame.mk [("Price", ColData.num [some 5, none])]) :=
  ⟨rfl,
   numericPrice_unchanged_by_cleaning
     (DataFrame.mk [("Price", ColData.num [some 5, none])])
     (ColData.num [some 5, none]) rfl rfl⟩

/-- C1 (refuted; the code contradicts its own comment «we saved fig objects as
fig1..fig6; write image if variable exists»): the PNG-export step never
invokes `pio.write_image` and writes no PNG file, for any input and any
renderer behaviour, because `'fig' + h.split('_')[0]` builds `"fig01"` …
`"fig06"` while the figures are bound to `fig1` … `fig6`, so the
`globals().get` lookup always misses. -/
theorem pngExport_never_attempted (input : Except String DataFrame)
    (render : String → Bool) :
    (runScript input render).png.attempts = [] ∧
    (runScript input render).png.pngs = [] := by
  cases input with
  | error e => exact ⟨rfl, rfl⟩
  | ok df =>
    by_cases h : "Price" ∈ df.columns
    · rw [runScript_ok_eq df render h]
      dsimp only
      rw [pngPhase_noop _ _ _ (chartFigs_subset_allFigNames _)]
      exact ⟨rfl, rfl⟩
    · rw [runScript_noPrice_eq df render h]
      exact ⟨rfl, rfl⟩

/-- C2: with `Price` present, the run completes (no exception, completion
message printed); the histogram file is always written, each guarded chart
file is written iff its required columns are present (for the heatmap: iff at
least two numeric columns exist after cleaning) — so a dataset lacking
`Sub Category` yields no box-plot file while the histogram file is still
produced. -/
theorem chartSteps_skip_not_fail (df : DataFrame) (render : String → Bool)
    (h : "Price" ∈ df.columns) :
    (runScript (Except.ok df) render).error = none ∧
    (runScript (Except.ok df) render).donePrinted = true ∧
    "01_price_histogram.html" ∈ (runScript (Except.ok df) render).htmlFiles ∧
    ("02_price_by_subcategory_box.html" ∈
        (runScript (Except.ok df) render).htmlFiles ↔
      "Sub Category" ∈ df.columns) ∧
    ("03_price_vs_rating_scatter.html" ∈
        (runScript (Except.ok df) render).htmlFiles ↔
      "Rating" ∈ df.columns) ∧
    ("04_top_products_by_reviews.html" ∈
        (runScript (Except.ok df) render).htmlFiles ↔
      "Reviews" ∈ df.columns ∧ "Product Name" ∈ df.columns) ∧
    ("06_category_treemap.html" ∈
        (runScript (Except.ok df) render).htmlFiles ↔
      "Main Category" ∈ df.columns ∧ "Sub Category" ∈ df.columns) ∧
    ("05_correlation_heatmap.html" ∈
        (runScript (Except.ok df) render).htmlFiles ↔
      2 ≤ (afterCleaning df).numericCols.length) ∧
    ("Sub Category" ∉ df.columns →
      "02_price_by_subcategory_box.html" ∉
        (runScript (Except.ok df) render).htmlFiles ∧
      "01_price_histogram.html" ∈
        (runScript (Except.ok df) render).htmlFiles) := by
  rw [runScript_ok_eq df render h]
  have h02 :
      "02_price_by_subcategory_box.html" ∈ chartFiles (afterCleaning df) ↔
        "Sub Category" ∈ df.columns := by
    rw [mem02_chartFiles, guard2_afterCleaning]
  refine ⟨rfl, rfl, mem01_chartFiles _, h02, ?_, ?_, ?_, ?_, ?_⟩
  · rw [mem03_chartFiles, guard3_afterCleaning df h]
  · rw [mem04_chartFiles, guard4_afterCleaning]
  · rw [mem06_chartFiles, guard6_afterCleaning]
  · exact mem05_chartFiles _
  · intro hsub
    exact ⟨fun hmem => hsub (h02.mp hmem), mem01_chartFiles _⟩

theorem chartSteps_skip_not_fail_witness :
    "Price" ∈ (DataFrame.mk [("Price", ColData.obj ["£1.00"])]).columns ∧
    ("02_price_by_subcategory_box.html" ∈
        (runScript (Except.ok (DataFrame.mk [("Price", ColData.obj ["£1.00"])]))
          (fun _ => true)).htmlFiles ↔
      "Sub Category" ∈ (DataFrame.mk [("Price", ColData.obj ["£1.00"])]).columns) :=
  ⟨by decide,
   (chartSteps_skip_not_fail (DataFrame.mk [("Price", ColData.obj ["£1.00"])])
     (fun _ => true) (by decide)).2.2.2.1⟩

/-- C5: with `Price` present (so the run reaches the chart steps), the
correlation-heatmap file is produced iff, after the cleaning step, at least
two numeric-dtype columns exist. -/
theorem heatmap_iff_two_numeric_cols (df : DataFrame)
    (render : String → Bool) (h : "Price" ∈ df.columns) :
    ("05_correlation_heatmap.html" ∈
        (runScript (Except.ok df) render).htmlFiles ↔
      2 ≤ (afterCleaning df).numericCols.length) := by
  rw [runScript_ok_eq df render h]
  exact mem05_chartFiles _

theorem heatmap_iff_two_numeric_cols_witness :
    "Price" ∈ (DataFrame.mk
      [("Price", ColData.obj ["£1.00"]), ("Rating", ColData.obj ["4"])]).columns ∧
    ("05_correlation_heatmap.html" ∈
        (runScript (Except.ok (DataFrame.mk
          [("Price", ColData.obj ["£1.00"]), ("Rating", ColData.obj ["4"])]))
          (fun _ => true)).htmlFiles ↔
      2 ≤ (afterCleaning (DataFrame.mk
        [("Price", ColData.obj ["£1.00"]),
         ("Rating", ColData.obj ["4"])])).numericCols.length) :=
  ⟨by decide,
   heatmap_iff_two_numeric_cols
     (DataFrame.mk
       [("Price", ColData.obj ["£1.00"]), ("Rating", ColData.obj ["4"])])
     (fun _ => true) (by decide)⟩

/-- C6: the PNG-export phase can never abort the run: whatever
`pio.write_image` would do (including always raising, as when `kaleido` is
missing), the run finishes with no uncaught exception, prints the completion
message, and the HTML files are exactly those of a run with a working
renderer; and every render invocation that raised (and was caught) is
accompanied by the warning print. (With the `fig01`-lookup slip of C1 no
render is ever invoked, so the failure set is empty and the last clause is
vacuous.) -/
theorem pngFailures_never_fatal (df : DataFrame) (render : String → Bool)
    (h : "Price" ∈ df.columns) :
    (runScript (Except.ok df) render).error = none ∧
    (runScript (Except.ok df) render).donePrinted = true ∧
    (runScript (Except.ok df) render).htmlFiles =
      (runScript (Except.ok df) (fun _ => true)).htmlFiles ∧
    "01_price_histogram.html" ∈ (runScript (Except.ok df) render).htmlFiles ∧
    (∀ f ∈ (runScript (Except.ok df) render).png.failures,
      (runScript (Except.ok df) render).png.warned = true) := by
  rw [runScript_ok_eq df render h, runScript_ok_eq df (fun _ => true) h]
  refine ⟨rfl, rfl, rfl, mem01_chartFiles _, ?_⟩
  rw [pngPhase_noop _ _ _ (chartFigs_subset_allFigNames _)]
  intro f hf
  exact absurd hf (List.not_mem_nil f)

theorem pngFailures_never_fatal_witness :
    "Price" ∈ (DataFrame.mk [("Price", ColData.obj ["£1.00"])]).columns ∧
    (runScript (Except.ok (DataFrame.mk [("Price", ColData.obj ["£1.00"])]))
      (fun _ => false)).error = none :=
  ⟨by decide,
   (pngFailures_never_fatal (DataFrame.mk [("Price", ColData.obj ["£1.00"])])
     (fun _ => false) (by decide)).1⟩

/-- C3 (counterexample): the value `"14.70"` is not currency-formatted text
(it has no `£` symbol), yet price cleaning parses it to `14.70` rather than
missing — refuting «any value that is not currency-formatted text parses to
missing». -/
theorem nonCurrency_text_parses_nonMissing :
    containsCurrencySymbol "14.70" = false ∧
    cleanPriceCell "14.70" = some (147 / 10) := by
  constructor
  · decide
  · have h : cleanPriceCell "14.70" =
        some ((digitsVal ['1', '4'] : ℚ) +
          (digitsVal ['7', '0'] : ℚ) / (10 : ℚ) ^ (['7', '0'].length)) := rfl
    have h1 : digitsVal ['1', '4'] = 14 := rfl
    have h2 : digitsVal ['7', '0'] = 70 := rfl
    rw [h, h1, h2]
    norm_num

/-- C3 (amended): price cleaning on an object-dtype `Price` column strips
every `£` and `,` character from each cell and parses the rest as numeric, so
`"£14.70"` parses to `14.70` and `"£1,234.50"` to `1234.50`; a cell whose
stripped text is not a decimal numeral parses to missing (e.g. `"abc"`), but
a bare numeral without the currency symbol also parses to its value
(`"14.70"` to `14.70`), not to missing. -/
theorem priceCleaning_strips_and_parses (df : DataFrame)
    (cells : List String)
    (hget : df.get? "Price" = some (ColData.obj cells)) :
    cleanPriceStep df =
      Except.ok (df.set "Price" (ColData.num (cells.map cleanPriceCell))) ∧
    cleanPriceCell "£14.70" = some (147 / 10) ∧
    cleanPriceCell "£1,234.50" = some (2469 / 2) ∧
    cleanPriceCell "abc" = none ∧
    cleanPriceCell "14.70" = some (147 / 10) := by
  refine ⟨?_, ?_, ?_, by decide, ?_⟩
  · rw [cleanPriceStep_of_get? df _ hget]
    rfl
  · have h : cleanPriceCell "£14.70" =
        some ((digitsVal ['1', '4'] : ℚ) +
          (digitsVal ['7', '0'] : ℚ) / (10 : ℚ) ^ (['7', '0'].length)) := rfl
    have h1 : digitsVal ['1', '4'] = 14 := rfl
    have h2 : digitsVal ['7', '0'] = 70 := rfl
    rw [h, h1, h2]
    norm_num
  · have h : cleanPriceCell "£1,234.50" =
        some ((digitsVal ['1', '2', '3', '4'] : ℚ) +
          (digitsVal ['5', '0'] : ℚ) / (10 : ℚ) ^ (['5', '0'].length)) := rfl
    have h1 : digitsVal ['1', '2', '3', '4'] = 1234 := rfl
    have h2 : digitsVal ['5', '0'] = 50 := rfl
    rw [h, h1, h2]
    norm_num
  · have h : cleanPriceCell "14.70" =
        some ((digitsVal ['1', '4'] : ℚ) +
          (digitsVal ['7', '0'] : ℚ) / (10 : ℚ) ^ (['7', '0'].length)) := rfl
    have h1 : digitsVal ['1', '4'] = 14 := rfl
    have h2 : digitsVal ['7', '0'] = 70 := rfl
    rw [h, h1, h2]
    norm_num

theorem priceCleaning_strips_and_parses_witness :
    (DataFrame.mk [("Price", ColData.obj ["£14.70", "abc"])]).get? "Price" =
      some (ColData.obj ["£14.70", "abc"]) ∧
    cleanPriceStep (DataFrame.mk [("Price", ColData.obj ["£14.70", "abc"])]) =
      Except.ok
        ((DataFrame.mk [("Price", ColData.obj ["£14.70", "abc"])]).set "Price"
          (ColData.num (["£14.70", "abc"].map cleanPriceCell))) :=
  ⟨rfl,
   (priceCleaning_strips_and_parses
     (DataFrame.mk [("Price", ColData.obj ["£14.70", "abc"])])
     ["£14.70", "abc"] rfl).1⟩

/-- C7: numeric coercion of `Rating` / `Reviews` never aborts: on an
object-dtype column it maps every cell through `pd.to_numeric` so that a
cell that cannot be parsed as numeric becomes missing (`none`), the column
keeps its length, and the coercion step preserves the set of columns of any
dataframe. -/
theorem coercion_unparseable_to_missing (cells : List String) (i : ℕ)
    (s : String) (hi : cells[i]? = some s)
    (hp : parseDecimal? s = none) :
    coerceNumericCol (ColData.obj cells) =
      ColData.num (cells.map parseDecimal?) ∧
    (cells.map parseDecimal?)[i]? = some none ∧
    (cells.map parseDecimal?).length = cells.length ∧
    ∀ df : DataFrame, (coerceStep df).columns = df.columns := by
  refine ⟨rfl, ?_, by simp, fun df => columns_coerceStep df⟩
  rw [List.getElem?_map, hi]
  simp [hp]

theorem coercion_unparseable_to_missing_witness :
    ["4.5", "abc"][1]? = some "abc" ∧
    parseDecimal? "abc" = none ∧
    (["4.5", "abc"].map parseDecimal?)[1]? = some none :=
  ⟨rfl, by decide,
   (coercion_unparseable_to_missing ["4.5", "abc"] 1 "abc" rfl
     (by decide)).2.1⟩

/-! ## Lemmas about the top-reviews computation -/

lemma dedupKeepFirst_sublist {α : Type} [DecidableEq α] :
    ∀ l : List α, List.Sublist (dedupKeepFirst l) l
  | [] => by rw [dedupKeepFirst]
  | a :: rest => by
    rw [dedupKeepFirst]
    exact List.Sublist.cons₂ a
      ((dedupKeepFirst_sublist _).trans (List.filter_sublist rest))
termination_by l => l.length
decreasing_by
  simp only [List.length_cons]
  exact Nat.lt_succ_of_le (List.length_filter_le _ _)

lemma dedupKeepFirst_nodup {α : Type} [DecidableEq α] :
    ∀ l : List α, (dedupKeepFirst l).Nodup
  | [] => by rw [dedupKeepFirst]; exact List.nodup_nil
  | a :: rest => by
    rw [dedupKeepFirst]
    refine List.nodup_cons.mpr ⟨?_, dedupKeepFirst_nodup _⟩
    intro hmem
    have hf := (dedupKeepFirst_sublist _).subset hmem
    simp [List.mem_filter] at hf
termination_by l => l.length
decreasing_by
  simp only [List.length_cons]
  exact Nat.lt_succ_of_le (List.length_filter_le _ _)

lemma revBefore_le {a b : ℕ × ℚ} (h : revBefore a b) : b.2 ≤ a.2 := by
  rcases h with h | ⟨h, -⟩
  · exact le_of_lt h
  · exact le_of_eq h.symm

lemma nlargestPairs_pairwise (vals : List (Option ℚ)) (n : ℕ) :
    List.Pairwise revBefore (nlargestPairs vals n) := by
  have h := List.sorted_insertionSort revBefore
    (vals.enum.filterMap (fun p => p.2.map (fun q => (p.1, q))))
  exact List.Pairwise.sublist (List.take_sublist n _) h

lemma nlargestPairs_length (vals : List (Option ℚ)) (n : ℕ) :
    (nlargestPairs vals n).length ≤ n := by
  unfold nlargestPairs
  exact List.length_take_le n _

lemma mem_withIdx_of_getElem? (vals : List (Option ℚ)) (j : ℕ) (v : ℚ)
    (hv : vals[j]? = some (some v)) :
    (j, v) ∈ vals.enum.filterMap (fun p => p.2.map (fun q => (p.1, q))) := by
  refine List.mem_filterMap.mpr ⟨(j, some v), ?_, rfl⟩
  exact List.mk_mem_enum_iff_getElem?.mpr hv

lemma nlargestPairs_dominates (vals : List (Option ℚ)) (n : ℕ)
    (iq : ℕ × ℚ) (hiq : iq ∈ nlargestPairs vals n) (j : ℕ) (v : ℚ)
    (hj : ∀ p ∈ nlargestPairs vals n, p.1 ≠ j)
    (hv : vals[j]? = some (some v)) : v ≤ iq.2 := by
  set wl := vals.enum.filterMap (fun p => p.2.map (fun q => (p.1, q))) with hwl
  set sorted := wl.insertionSort revBefore with hsorted
  have hmem : (j, v) ∈ sorted := by
    rw [hsorted, (List.perm_insertionSort revBefore wl).mem_iff]
    exact mem_withIdx_of_getElem? vals j v hv
  have hpw : List.Pairwise revBefore sorted :=
    List.sorted_insertionSort revBefore wl
  have hsplit : sorted = sorted.take n ++ sorted.drop n :=
    (List.take_append_drop n sorted).symm
  have hcross :
      ∀ x ∈ sorted.take n, ∀ y ∈ sorted.drop n, revBefore x y :=
    (List.pairwise_append.mp (hsplit ▸ hpw)).2.2
  rcases List.mem_append.mp (hsplit ▸ hmem) with htake | hdrop
  · exact absurd rfl (hj (j, v) htake)
  · exact revBefore_le (hcross iq hiq (j, v) hdrop)

/-- C4: the data behind the top-reviews bar chart —
`df.nlargest(15, 'Reviews')[['Product Name', 'Reviews']].drop_duplicates()`
reversed for display — holds at most 15 pairs, all distinct, ordered
ascending by `Reviews` (so the largest review count is last, rendered at the
top of the horizontal bar chart), and every displayed `Reviews` value is at
least as large as every non-NaN `Reviews` value of the rows not selected by
`nlargest`. -/
theorem topReviews_spec (pcol : ColData) (rvals : List (Option ℚ)) :
    (topReviews pcol rvals).length ≤ 15 ∧
    (topReviews pcol rvals).Nodup ∧
    List.Pairwise (fun a b : Cell × ℚ => a.2 ≤ b.2) (topReviews pcol rvals) ∧
    ∀ pr ∈ topReviews pcol rvals, ∀ j : ℕ, ∀ v : ℚ,
      (∀ p ∈ nlargestPairs rvals 15, p.1 ≠ j) →
      rvals[j]? = some (some v) → v ≤ pr.2 := by
  have hsub :=
    dedupKeepFirst_sublist
      ((nlargestPairs rvals 15).map (fun iq => (pcol.cellAt iq.1, iq.2)))
  refine ⟨?_, ?_, ?_, ?_⟩
  · rw [topReviews, List.length_reverse]
    calc (dedupKeepFirst
          ((nlargestPairs rvals 15).map
            (fun iq => (pcol.cellAt iq.1, iq.2)))).length
        ≤ ((nlargestPairs rvals 15).map
            (fun iq => (pcol.cellAt iq.1, iq.2))).length := hsub.length_le
      _ = (nlargestPairs rvals 15).length := List.length_map _ _
      _ ≤ 15 := nlargestPairs_length rvals 15
  · rw [topReviews, List.nodup_reverse]
    exact dedupKeepFirst_nodup _
  · rw [topReviews, List.pairwise_reverse]
    refine List.Pairwise.sublist hsub ?_
    rw [List.pairwise_map]
    exact (nlargestPairs_pairwise rvals 15).imp (fun h => revBefore_le h)
  · intro pr hpr j v hj hv
    rw [topReviews, List.mem_reverse] at hpr
    obtain ⟨iq, hiq, rfl⟩ := List.mem_map.mp (hsub.subset hpr)
    exact nlargestPairs_dominates rvals 15 iq hiq j v hj hv

theorem topReviews_spec_witness :
    (topReviews (ColData.obj ["a", "b", "c", "d"])
        [some 5, none, some 9, some 5]).length ≤ 15 ∧
    (topReviews (ColData.obj ["a", "b", "c", "d"])
        [some 5, none, some 9, some 5]).Nodup :=
  ⟨(topReviews_spec (ColData.obj ["a", "b", "c", "d"])
      [some 5, none, some 9, some 5]).1,
   (topReviews_spec (ColData.obj ["a", "b", "c", "d"])
      [some 5, none, some 9, some 5]).2.1⟩
